import Mathlib

/-!
Verification of the configuration-switching engine of claude-codust.

The definitions below are a shallow embedding of the Rust sources:
  src/config.rs   (profile discovery, settings reconciliation)
  src/commands.rs (environment synthesis, process orchestration)
  src/ui.rs       (selector cursor state machine)
JSON documents are modelled by an inductive value type mirroring
serde_json::Value; objects are association lists (serde maps have unique
keys, and every statement below is phrased through key lookup, which is
insensitive to the representation).  File writes are modelled as an
explicit list of file-system operations.
-/

namespace Codust

/-- JSON values, mirroring serde_json::Value.  Numbers are modelled as Int:
no code path under verification inspects numeric values. -/
inductive Json where
  | null
  | bool (b : Bool)
  | num (n : Int)
  | str (s : String)
  | arr (elems : List Json)
  | obj (fields : List (String × Json))

/-- First-match key lookup in an association list: serde_json::Map::get and
HashMap::get. -/
def lookupKey {β : Type} (m : List (String × β)) (k : String) : Option β :=
  match m with
  | [] => none
  | p :: rest => if p.1 = k then some p.2 else lookupKey rest k

/-- Value::get with a string index: a lookup on objects, None on everything
else (config.rs line 100, commands.rs lines 70, 79, 85). -/
def Json.get (j : Json) (k : String) : Option Json :=
  match j with
  | .obj fields => lookupKey fields k
  | _ => none

/-- Value::as_str (commands.rs lines 72, 79, 86). -/
def Json.asStr (j : Json) : Option String :=
  match j with
  | .str s => some s
  | _ => none

/-- Value::as_object / as_object_mut (config.rs lines 100, 115, 132). -/
def Json.asObject (j : Json) : Option (List (String × Json)) :=
  match j with
  | .obj fields => some fields
  | _ => none

/-! ### Settings Reconciler (config.rs, backup_settings_json_if_exists) -/

/-- The fixed credential key names (config.rs line 101). -/
def anthropicKeys : List String :=
  ["ANTHROPIC_BASE_URL", "ANTHROPIC_AUTH_TOKEN", "ANTHROPIC_API_KEY"]

/-- The credential keys actually present in the env object: the removed_keys
vector accumulated by the loop at config.rs lines 104-108. -/
def removedKeys (env : List (String × Json)) : List String :=
  anthropicKeys.filter (fun k => (lookupKey env k).isSome)

/-- The env object after the removal loop of config.rs lines 104-108. -/
def removeAnthropic (env : List (String × Json)) : List (String × Json) :=
  env.filter (fun p => !(anthropicKeys.contains p.1))

/-- Map::remove of a key (config.rs line 116). -/
def mapRemove (m : List (String × Json)) (k : String) : List (String × Json) :=
  m.filter (fun p => !(p.1 == k))

/-- In-place replacement of the value bound to a key, as performed by the
mutation through as_object_mut at config.rs lines 100-119. -/
def mapSet (m : List (String × Json)) (k : String) (v : Json) : List (String × Json) :=
  m.map (fun p => if p.1 = k then (k, v) else p)

/-- The credential scrub of config.rs lines 95-125 on an object document:
the env lookup through get_mut("env").as_object_mut() at line 100, the
removal loop, and the conditional rewrite. -/
def scrubObj (fields : List (String × Json)) : Json × Bool :=
  match lookupKey fields "env" with
  | some (.obj envFields) =>
    if (removedKeys envFields).isEmpty then (Json.obj fields, false)
    else
      let envScrubbed := removeAnthropic envFields
      let newFields :=
        if envScrubbed.isEmpty then mapRemove fields "env"
        else mapSet fields "env" (Json.obj envScrubbed)
      (Json.obj newFields, true)
  | _ => (Json.obj fields, false)

/-- The credential scrub of config.rs lines 95-125, acting on the parsed
settings.json document.  Returns the resulting document and whether the file
was rewritten (the fs::write at line 123 runs only when removed_keys is
non-empty; the env key is dropped at line 116 only when, in addition, the
scrubbed env object is empty). -/
def scrubSettings : Json → Json × Bool
  | .obj fields => scrubObj fields
  | other => (other, false)

/-- Lookup inside the env object of a settings document; none when the
document is not an object, has no env key, or env is not an object. -/
def settingsEnvLookup (doc : Json) (k : String) : Option Json :=
  match doc.get "env" with
  | some (.obj env) => lookupKey env k
  | _ => none

/-- File-system side effects performed by backup_settings_json_if_exists.
renameSettings is included to state its absence: the source never renames
(the rewrite at config.rs line 123 is a direct fs::write). -/
inductive FsOp where
  | writeSettings (doc : Json)
  | renameSettings (src dst : String)
  | createLocalDir
  | writeOverlay (doc : Json)

def FsOp.isSettingsWrite : FsOp → Bool
  | .writeSettings _ => true
  | _ => false

def FsOp.isRename : FsOp → Bool
  | .renameSettings _ _ => true
  | _ => false

def FsOp.isOverlayWrite : FsOp → Bool
  | .writeOverlay _ => true
  | _ => false

/-- Local overlay extraction, config.rs lines 128-156: the non-env top-level
keys of the profile's own document; when that object is non-empty the local
.claude directory is created and settings.local.json is written (overwrite
semantics of fs::write), otherwise nothing is written. -/
def extractLocalOps (profile : Json) : List FsOp :=
  match profile with
  | .obj fields =>
    let localSettings := fields.filter (fun p => !(p.1 == "env"))
    if localSettings.isEmpty then []
    else [FsOp.createLocalDir, FsOp.writeOverlay (Json.obj localSettings)]
  | _ => []

/-- backup_settings_json_if_exists, config.rs lines 91-159, over parsed
documents: settings is the parsed settings.json when that file exists,
profile is the parsed profile document.  Returns the resulting settings.json
document (unchanged when no write happened) and the list of file writes
performed. -/
def reconcile (settings : Option Json) (profile : Json) : Option Json × List FsOp :=
  match settings with
  | none => (none, extractLocalOps profile)
  | some doc =>
    let scrubbed := scrubSettings doc
    (some scrubbed.1,
      (if scrubbed.2 then [FsOp.writeSettings scrubbed.1] else []) ++ extractLocalOps profile)

/-! ### Environment Synthesizer (commands.rs, launch_claude_with_config) -/

/-- The two profile kinds (config.rs lines 26-29). -/
inductive ConfigType where
  | claude
  | codeRouter
deriving DecidableEq

/-- A profile descriptor (config.rs lines 18-23). -/
structure ConfigItem where
  name : String
  path : String
  config_type : ConfigType
deriving DecidableEq

/-- A launch environment: a finite map from variable names to values,
queried through lookupKey. -/
abbrev Env := List (String × String)

/-- HashMap::insert: bind k to v, overriding any previous binding. -/
def envInsert (e : Env) (k v : String) : Env :=
  (k, v) :: e.filter (fun p => !(p.1 == k))

/-- The loop at commands.rs lines 71-75: insert every string-valued entry of
the profile's env object into the environment. -/
def applyClaudeEnv (envFields : List (String × Json)) (acc : Env) : Env :=
  match envFields with
  | [] => acc
  | (k, v) :: rest =>
    match v.asStr with
    | some s => applyClaudeEnv rest (envInsert acc k s)
    | none => applyClaudeEnv rest acc

/-- Environment synthesis of commands.rs lines 67-91, starting from the
inherited process environment. -/
def synthesizeEnv (config_type : ConfigType) (config : Json) (inherited : Env) : Env :=
  match config_type with
  | .claude =>
    match config.get "env" with
    | some (.obj envFields) => applyClaudeEnv envFields inherited
    | _ => inherited
  | .codeRouter =>
    let e1 :=
      match (config.get "APIKEY").bind Json.asStr with
      | some apiKey => envInsert inherited "ANTHROPIC_API_KEY" apiKey
      | none => envInsert inherited "ANTHROPIC_AUTH_TOKEN" "test"
    let port :=
      match (config.get "PORT").bind Json.asStr with
      | some p => p
      | none => "3456"
    envInsert e1 "ANTHROPIC_BASE_URL" ("http://127.0.0.1:" ++ port)

/-! ### Profile Store ordering (config.rs, load_configurations) -/

/-- Rank used by the comparator at config.rs lines 81-87: Claude entries
order strictly before CodeRouter entries. -/
def kindRank : ConfigType → Nat
  | .claude => 0
  | .codeRouter => 1

/-- The reflexive ordering induced by the sort_by comparator at config.rs
lines 81-87: first by kind (Claude before CodeRouter), then by
a.name.cmp(&b.name), the lexicographic order on strings. -/
def configLE (a b : ConfigItem) : Prop :=
  kindRank a.config_type < kindRank b.config_type ∨
    (kindRank a.config_type = kindRank b.config_type ∧ a.name ≤ b.name)

instance : DecidableRel configLE := fun a b => by
  unfold configLE; infer_instance

/-- The sort of config.rs line 81: a sort of the discovered entries by the
comparator's ordering. -/
def sortConfigs (l : List ConfigItem) : List ConfigItem :=
  List.insertionSort configLE l

instance : IsTotal ConfigItem configLE :=
  ⟨fun a b => by
    unfold configLE
    rcases Nat.lt_trichotomy (kindRank a.config_type) (kindRank b.config_type) with h | h | h
    · exact Or.inl (Or.inl h)
    · rcases le_total a.name b.name with hn | hn
      · exact Or.inl (Or.inr ⟨h, hn⟩)
      · exact Or.inr (Or.inr ⟨h.symm, hn⟩)
    · exact Or.inr (Or.inl h)⟩

instance : IsTrans ConfigItem configLE :=
  ⟨fun a b c hab hbc => by
    unfold configLE at hab hbc ⊢
    rcases hab with h1 | ⟨h1, hn1⟩
    · rcases hbc with h2 | ⟨h2, hn2⟩
      · exact Or.inl (h1.trans h2)
      · exact Or.inl (lt_of_lt_of_le h1 (le_of_eq h2))
    · rcases hbc with h2 | ⟨h2, hn2⟩
      · exact Or.inl (lt_of_le_of_lt (le_of_eq h1) h2)
      · exact Or.inr ⟨h1.trans h2, hn1.trans hn2⟩⟩

/-! ### Selector cursor (ui.rs, run_selector) -/

/-- Key inputs distinguished by the match at ui.rs lines 44-67. -/
inductive Key where
  | up
  | down
  | enter
  | escOrQ
  | other

/-- The cursor update of ui.rs lines 45-58: Up and Down move with wraparound,
every other key leaves the cursor unchanged. -/
def stepCursor (len selected : Nat) (k : Key) : Nat :=
  match k with
  | .up => if selected = 0 then len - 1 else selected - 1
  | .down => if selected = len - 1 then 0 else selected + 1
  | _ => selected

/-! ### Process Orchestrator (commands.rs, switch_configuration for Router) -/

/-- Outcome of attempting to run one external process: the spawn itself can
fail, or the process runs and exits with a code (0 meaning success). -/
inductive ProcOutcome where
  | spawnFail
  | exited (code : Int)
deriving DecidableEq

/-- The externally determined outcomes of the three subprocesses of a
Router-kind activation. -/
structure RouterRun where
  ccrRestart : ProcOutcome
  claudeRun : ProcOutcome
  ccrStop : ProcOutcome

/-- Observable events of a Router-kind activation. -/
inductive Event where
  | copiedProfile
  | ccrRestartWarned
  | claudeLaunched
  | ccrStopAttempted
  | claudeExitWarned
deriving DecidableEq

/-- run_ccr_restart, commands.rs lines 164-192: a spawn failure propagates
through the question-mark operator (line 173/180), so the call fails; a
non-zero exit status only prints a warning (line 186) and the call
succeeds. -/
def run_ccr_restart (o : ProcOutcome) : Bool × List Event :=
  match o with
  | .spawnFail => (false, [])
  | .exited c => (true, if c = 0 then [] else [Event.ccrRestartWarned])

/-- stop_ccr, commands.rs lines 194-222; its result is discarded by the
caller (line 121), so only the attempt is observable. -/
def stop_ccr (_ : ProcOutcome) : Bool × List Event :=
  (true, [Event.ccrStopAttempted])

/-- launch_claude_with_config for the CodeRouter kind, commands.rs
lines 100-124: a claude spawn failure is fatal (question mark at
line 107/115); after the child exits, stop_ccr is always attempted with its
error discarded, then a non-zero claude exit is reported. -/
def launchRouter (claudeRun ccrStop : ProcOutcome) : Bool × List Event :=
  match claudeRun with
  | .spawnFail => (false, [])
  | .exited c =>
    (true,
      Event.claudeLaunched :: (stop_ccr ccrStop).2 ++
        (if c = 0 then [] else [Event.claudeExitWarned]))

/-- switch_configuration, CodeRouter branch, commands.rs lines 43-57: copy
the profile over the companion config, run ccr restart (a failure of that
call aborts through the question mark at line 54), then launch claude. -/
def switchRouter (r : RouterRun) : Bool × List Event :=
  let restart := run_ccr_restart r.ccrRestart
  if restart.1 then
    let launch := launchRouter r.claudeRun r.ccrStop
    (launch.1, Event.copiedProfile :: (restart.2 ++ launch.2))
  else (false, Event.copiedProfile :: restart.2)

/-! ### Concrete documents used in counterexamples and witnesses -/

/-- A settings document whose env object is present but already empty. -/
def envOnlyEmptyDoc : Json := Json.obj [("env", Json.obj [])]

/-- The env object holding exactly the three credential keys. -/
def credsOnlyEnv : List (String × Json) :=
  [("ANTHROPIC_BASE_URL", Json.str "u"), ("ANTHROPIC_AUTH_TOKEN", Json.str "t"),
    ("ANTHROPIC_API_KEY", Json.str "k")]

/-- A settings document whose env object holds exactly the three credential
keys and nothing else. -/
def credsOnlyFields : List (String × Json) := [("env", Json.obj credsOnlyEnv)]

/-- A settings document with one non-env top-level key and an env object
holding one credential key and one unrelated key. -/
def mixedDoc : Json :=
  Json.obj [("model", Json.str "m"),
    ("env", Json.obj [("ANTHROPIC_API_KEY", Json.str "k"), ("OTHER", Json.str "x")])]

/-- A settings document whose env object holds a single credential key. -/
def oneCredDoc : Json :=
  Json.obj [("env", Json.obj [("ANTHROPIC_API_KEY", Json.str "k")])]

/-- The Primary profile of the spec's overlay example:
a document with an env object and one non-env key. -/
def fooFields : List (String × Json) :=
  [("env", Json.obj [("X", Json.str "1")]), ("foo", Json.str "bar")]

/-- The Router profile of the spec's synthesis example. -/
def routerDemo : Json :=
  Json.obj [("APIKEY", Json.str "k1"), ("PORT", Json.str "8080")]

/-- A Router profile whose PORT field is the empty string. -/
def emptyPortDemo : Json := Json.obj [("PORT", Json.str "")]

/-- A discovery result where alphabetical order crosses kinds: the Router
entry's name orders before the Claude entry's name. -/
def demoConfigs : List ConfigItem :=
  [{ name := "aaa-ccr", path := "r", config_type := ConfigType.codeRouter },
    { name := "zzz", path := "c", config_type := ConfigType.claude }]

/-- A Router activation whose companion restart cannot be spawned while both
other subprocesses would succeed. -/
def restartSpawnFailRun : RouterRun :=
  { ccrRestart := ProcOutcome.spawnFail, claudeRun := ProcOutcome.exited 0,
    ccrStop := ProcOutcome.exited 0 }

/-! ### Association-list lookup lemmas -/

theorem lookupKey_filterKeys {β : Type} (P : String → Bool) (m : List (String × β))
    (k : String) :
    lookupKey (m.filter (fun p => P p.1)) k = if P k then lookupKey m k else none := by
  induction m with
  | nil => simp [lookupKey]
  | cons p rest ih =>
    by_cases hk : p.1 = k
    · subst hk
      by_cases hp : P p.1 <;> simp [List.filter_cons, lookupKey, hp, ih]
    · by_cases hp : P p.1 <;> simp [List.filter_cons, lookupKey, hp, hk, ih]

theorem lookupKey_eq_none_iff {β : Type} (m : List (String × β)) (k : String) :
    lookupKey m k = none ↔ ∀ p ∈ m, p.1 ≠ k := by
  induction m with
  | nil => simp [lookupKey]
  | cons p rest ih =>
    by_cases hk : p.1 = k
    · simp [lookupKey, hk]
    · simp [lookupKey, hk, ih]

theorem lookupKey_mapSet_self (m : List (String × Json)) (k : String) (v : Json) :
    lookupKey (mapSet m k v) k = (lookupKey m k).map (fun _ => v) := by
  induction m with
  | nil => simp [mapSet, lookupKey]
  | cons p rest ih =>
    simp only [mapSet] at ih ⊢
    by_cases hk : p.1 = k
    · simp [lookupKey, hk]
    · simp [lookupKey, hk, ih]

theorem lookupKey_mapSet_ne (m : List (String × Json)) (k k' : String) (v : Json)
    (h : k' ≠ k) :
    lookupKey (mapSet m k v) k' = lookupKey m k' := by
  induction m with
  | nil => simp [mapSet, lookupKey]
  | cons p rest ih =>
    simp only [mapSet] at ih ⊢
    by_cases hk : p.1 = k
    · simp [lookupKey, hk, Ne.symm h, ih]
    · by_cases hk' : p.1 = k' <;> simp [lookupKey, hk, hk', h, ih]

theorem lookupKey_envInsert_self (e : Env) (k v : String) :
    lookupKey (envInsert e k v) k = some v := by
  simp [envInsert, lookupKey]

theorem lookupKey_envInsert_ne (e : Env) (k v k' : String) (h : k' ≠ k) :
    lookupKey (envInsert e k v) k' = lookupKey e k' := by
  have hf := lookupKey_filterKeys (fun s => !(s == k)) e k'
  simp [h] at hf
  simp [envInsert, lookupKey, Ne.symm h, hf]

/-- A key of the env object that is not a credential key looks up the same
value after the removal loop. -/
theorem lookupKey_removeAnthropic_ne (env : List (String × Json)) (k : String)
    (h : k ∉ anthropicKeys) :
    lookupKey (removeAnthropic env) k = lookupKey env k := by
  have hf := lookupKey_filterKeys (fun s => !(anthropicKeys.contains s)) env k
  simpa [removeAnthropic, h] using hf

/-- A credential key never survives the removal loop. -/
theorem lookupKey_removeAnthropic_mem (env : List (String × Json)) (k : String)
    (h : k ∈ anthropicKeys) :
    lookupKey (removeAnthropic env) k = none := by
  have hf := lookupKey_filterKeys (fun s => !(anthropicKeys.contains s)) env k
  simpa [removeAnthropic, h] using hf

theorem lookupKey_mapRemove_self (m : List (String × Json)) (k : String) :
    lookupKey (mapRemove m k) k = none := by
  have hf := lookupKey_filterKeys (fun s => !(s == k)) m k
  simpa using hf

theorem lookupKey_mapRemove_ne (m : List (String × Json)) (k k' : String) (h : k' ≠ k) :
    lookupKey (mapRemove m k) k' = lookupKey m k' := by
  have hf := lookupKey_filterKeys (fun s => !(s == k)) m k'
  simpa [h] using hf

/-! ### Case analysis of the credential scrub -/

theorem scrubSettings_not_obj (doc : Json) (h : doc.asObject = none) :
    scrubSettings doc = (doc, false) := by
  cases doc with
  | obj fields => simp [Json.asObject] at h
  | null => rfl
  | bool b => rfl
  | num n => rfl
  | str s => rfl
  | arr elems => rfl

theorem scrubSettings_no_env_obj (fields : List (String × Json))
    (h : ∀ envFields, lookupKey fields "env" ≠ some (Json.obj envFields)) :
    scrubSettings (Json.obj fields) = (Json.obj fields, false) := by
  show scrubObj fields = (Json.obj fields, false)
  unfold scrubObj
  cases henv : lookupKey fields "env" with
  | none => rfl
  | some j =>
    cases j with
    | obj envFields => exact absurd henv (h envFields)
    | null => rfl
    | bool b => rfl
    | num n => rfl
    | str s => rfl
    | arr elems => rfl

theorem scrubSettings_no_removal (fields envFields : List (String × Json))
    (henv : lookupKey fields "env" = some (Json.obj envFields))
    (hrem : removedKeys envFields = []) :
    scrubSettings (Json.obj fields) = (Json.obj fields, false) := by
  show scrubObj fields = (Json.obj fields, false)
  unfold scrubObj
  rw [henv]
  simp [hrem]

theorem scrubSettings_removal_empty (fields envFields : List (String × Json))
    (henv : lookupKey fields "env" = some (Json.obj envFields))
    (hrem : removedKeys envFields ≠ [])
    (hscr : removeAnthropic envFields = []) :
    scrubSettings (Json.obj fields) = (Json.obj (mapRemove fields "env"), true) := by
  show scrubObj fields = (Json.obj (mapRemove fields "env"), true)
  unfold scrubObj
  rw [henv]
  simp [hrem, hscr]

theorem scrubSettings_removal_nonempty (fields envFields : List (String × Json))
    (henv : lookupKey fields "env" = some (Json.obj envFields))
    (hrem : removedKeys envFields ≠ [])
    (hscr : removeAnthropic envFields ≠ []) :
    scrubSettings (Json.obj fields) =
      (Json.obj (mapSet fields "env" (Json.obj (removeAnthropic envFields))), true) := by
  show scrubObj fields =
    (Json.obj (mapSet fields "env" (Json.obj (removeAnthropic envFields))), true)
  unfold scrubObj
  rw [henv]
  simp [hrem, hscr]

/-- No removal happens exactly when no credential key is bound in env. -/
theorem removedKeys_eq_nil_iff (env : List (String × Json)) :
    removedKeys env = [] ↔ ∀ k ∈ anthropicKeys, lookupKey env k = none := by
  unfold removedKeys
  rw [List.filter_eq_nil_iff]
  constructor
  · intro h k hk
    have hh := h k hk
    cases hl : lookupKey env k with
    | none => rfl
    | some v => rw [hl] at hh; simp at hh
  · intro h k hk
    simp [h k hk]

/-- The scrubbed env object is empty exactly when every non-credential key is
unbound in env (equivalently, every entry of env is a credential key). -/
theorem removeAnthropic_eq_nil_iff (env : List (String × Json)) :
    removeAnthropic env = [] ↔ ∀ k, k ∉ anthropicKeys → lookupKey env k = none := by
  unfold removeAnthropic
  rw [List.filter_eq_nil_iff]
  constructor
  · intro h k hk
    rw [lookupKey_eq_none_iff]
    intro p hp hpk
    have := h p hp
    simp at this
    exact hk (hpk ▸ this)
  · intro h p hp
    simp only [Bool.not_eq_true', Bool.not_eq_true]
    by_contra hc
    simp at hc
    have := h p.1 (by simpa using hc)
    rw [lookupKey_eq_none_iff] at this
    exact this p hp rfl

/-! ### C1: the credential scrub on the env object -/

/-- C1 counterexample: for the settings document with an initially empty env
object, the scrub removes nothing, performs no write and leaves the env key
in place, although env is empty after the (vacuous) removal; the claim
predicts that the env key is deleted whenever env is empty after the
removal. -/
theorem c1_counterexample :
    Json.get (scrubSettings envOnlyEmptyDoc).1 "env" = some (Json.obj []) ∧
      (scrubSettings envOnlyEmptyDoc).2 = false :=
  ⟨rfl, rfl⟩

/-- C1 (amended): for every settings document that is a JSON object with an
env object, the scrub unbinds exactly the three credential keys in env
(every other env key keeps its binding), and the env key itself is deleted
if and only if at least one credential key was present and every key bound
in env was a credential key; in particular, when env contained exactly the
three credential keys the resulting document has no env key. -/
theorem c1_scrub_env_exact (fields envFields : List (String × Json))
    (henv : lookupKey fields "env" = some (Json.obj envFields)) :
    (∀ k ∈ anthropicKeys, settingsEnvLookup (scrubSettings (Json.obj fields)).1 k = none) ∧
    (∀ k, k ∉ anthropicKeys →
      settingsEnvLookup (scrubSettings (Json.obj fields)).1 k = lookupKey envFields k) ∧
    (Json.get (scrubSettings (Json.obj fields)).1 "env" = none ↔
      (∃ k ∈ anthropicKeys, lookupKey envFields k ≠ none) ∧
        (∀ k, k ∉ anthropicKeys → lookupKey envFields k = none)) := by
  by_cases hrem : removedKeys envFields = []
  · rw [scrubSettings_no_removal fields envFields henv hrem]
    have hnone := (removedKeys_eq_nil_iff envFields).mp hrem
    refine ⟨?_, ?_, ?_⟩
    · intro k hk
      simp [settingsEnvLookup, Json.get, henv, hnone k hk]
    · intro k _
      simp [settingsEnvLookup, Json.get, henv]
    · constructor
      · intro hnoenv
        simp [Json.get, henv] at hnoenv
      · rintro ⟨⟨k, hk, hsome⟩, -⟩
        exact absurd (hnone k hk) hsome
  · have hex : ∃ k ∈ anthropicKeys, lookupKey envFields k ≠ none := by
      by_contra hc
      push_neg at hc
      exact hrem ((removedKeys_eq_nil_iff envFields).mpr hc)
    by_cases hscr : removeAnthropic envFields = []
    · rw [scrubSettings_removal_empty fields envFields henv hrem hscr]
      have hnone := (removeAnthropic_eq_nil_iff envFields).mp hscr
      refine ⟨?_, ?_, ?_⟩
      · intro k _
        simp [settingsEnvLookup, Json.get, lookupKey_mapRemove_self]
      · intro k hk
        simp [settingsEnvLookup, Json.get, lookupKey_mapRemove_self, hnone k hk]
      · simp only [Json.get, lookupKey_mapRemove_self]
        exact ⟨fun _ => ⟨hex, hnone⟩, fun _ => by simp⟩
    · rw [scrubSettings_removal_nonempty fields envFields henv hrem hscr]
      have hset : lookupKey (mapSet fields "env" (Json.obj (removeAnthropic envFields))) "env"
          = some (Json.obj (removeAnthropic envFields)) := by
        rw [lookupKey_mapSet_self, henv]
        rfl
      refine ⟨?_, ?_, ?_⟩
      · intro k hk
        simp [settingsEnvLookup, Json.get, hset, lookupKey_removeAnthropic_mem envFields k hk]
      · intro k hk
        simp [settingsEnvLookup, Json.get, hset, lookupKey_removeAnthropic_ne envFields k hk]
      · simp only [Json.get, hset]
        constructor
        · intro hcc
          exact absurd hcc (by simp)
        · rintro ⟨-, hforall⟩
          exact absurd ((removeAnthropic_eq_nil_iff envFields).mpr hforall) hscr

/-- C1 witness: the amended theorem applied to the settings document whose
env object holds exactly the three credential keys: the scrubbed document
has no env key at all. -/
theorem c1_scrub_env_exact_witness :
    lookupKey credsOnlyFields "env" = some (Json.obj credsOnlyEnv) ∧
      Json.get (scrubSettings (Json.obj credsOnlyFields)).1 "env" = none := by
  refine ⟨rfl, ?_⟩
  refine (c1_scrub_env_exact credsOnlyFields credsOnlyEnv rfl).2.2.mpr ⟨?_, ?_⟩
  · refine ⟨"ANTHROPIC_API_KEY", by decide, ?_⟩
    have hl : lookupKey credsOnlyEnv "ANTHROPIC_API_KEY" = some (Json.str "k") := rfl
    rw [hl]
    simp
  · intro k hk
    rw [lookupKey_eq_none_iff]
    intro p hp
    have hmem : p.1 ∈ anthropicKeys := by
      simp only [credsOnlyEnv, List.mem_cons, List.not_mem_nil, or_false] at hp
      rcases hp with h1 | h1 | h1 <;> rw [h1] <;> decide
    intro hpk
    exact hk (hpk ▸ hmem)

/-! ### C10: frame property of the credential scrub -/

/-- C10: the credential scrub keeps every top-level key other than env
unchanged, keeps every non-credential env entry unchanged, and when the
document has no env key bound to an object (including a non-object document
or a non-object env value) it changes nothing and reports no write. -/
theorem c10_scrub_frame (doc : Json) :
    (∀ k, k ≠ "env" → Json.get (scrubSettings doc).1 k = Json.get doc k) ∧
    (∀ k, k ∉ anthropicKeys →
      settingsEnvLookup (scrubSettings doc).1 k = settingsEnvLookup doc k) ∧
    ((∀ envFields, Json.get doc "env" ≠ some (Json.obj envFields)) →
      scrubSettings doc = (doc, false)) := by
  cases doc with
  | null => exact ⟨fun _ _ => rfl, fun _ _ => rfl, fun _ => rfl⟩
  | bool b => exact ⟨fun _ _ => rfl, fun _ _ => rfl, fun _ => rfl⟩
  | num n => exact ⟨fun _ _ => rfl, fun _ _ => rfl, fun _ => rfl⟩
  | str s => exact ⟨fun _ _ => rfl, fun _ _ => rfl, fun _ => rfl⟩
  | arr elems => exact ⟨fun _ _ => rfl, fun _ _ => rfl, fun _ => rfl⟩
  | obj fields =>
    by_cases henvobj : ∃ envFields, lookupKey fields "env" = some (Json.obj envFields)
    · obtain ⟨envFields, henv⟩ := henvobj
      have hthird : (∀ envFields, Json.get (Json.obj fields) "env" ≠ some (Json.obj envFields)) →
          scrubSettings (Json.obj fields) = (Json.obj fields, false) :=
        fun h => absurd henv (h envFields)
      by_cases hrem : removedKeys envFields = []
      · rw [scrubSettings_no_removal fields envFields henv hrem] at hthird ⊢
        exact ⟨fun _ _ => rfl, fun _ _ => rfl, hthird⟩
      · by_cases hscr : removeAnthropic envFields = []
        · rw [scrubSettings_removal_empty fields envFields henv hrem hscr] at hthird ⊢
          have hnone := (removeAnthropic_eq_nil_iff envFields).mp hscr
          refine ⟨?_, ?_, hthird⟩
          · intro k hk
            exact lookupKey_mapRemove_ne fields "env" k hk
          · intro k hk
            simp [settingsEnvLookup, Json.get, lookupKey_mapRemove_self, henv, hnone k hk]
        · rw [scrubSettings_removal_nonempty fields envFields henv hrem hscr] at hthird ⊢
          have hset : lookupKey (mapSet fields "env"
              (Json.obj (removeAnthropic envFields))) "env"
              = some (Json.obj (removeAnthropic envFields)) := by
            rw [lookupKey_mapSet_self, henv]
            rfl
          refine ⟨?_, ?_, hthird⟩
          · intro k hk
            exact lookupKey_mapSet_ne fields "env" k _ hk
          · intro k hk
            simp [settingsEnvLookup, Json.get, hset, henv,
              lookupKey_removeAnthropic_ne envFields k hk]
    · push_neg at henvobj
      rw [scrubSettings_no_env_obj fields henvobj]
      exact ⟨fun _ _ => rfl, fun _ _ => rfl, fun _ => rfl⟩

/-- C10 witness: the frame theorem applied to a concrete mixed document: the
top-level model key and the non-credential env entry OTHER survive the
scrub with their original values. -/
theorem c10_scrub_frame_witness :
    ("model" ≠ "env" ∧
      Json.get (scrubSettings mixedDoc).1 "model" = Json.get mixedDoc "model") ∧
    ("OTHER" ∉ anthropicKeys ∧
      settingsEnvLookup (scrubSettings mixedDoc).1 "OTHER" = settingsEnvLookup mixedDoc "OTHER") :=
  ⟨⟨by decide, (c10_scrub_frame mixedDoc).1 "model" (by decide)⟩,
    ⟨by decide, (c10_scrub_frame mixedDoc).2.1 "OTHER" (by decide)⟩⟩

/-! ### Idempotence of the scrub and the second reconcile run -/

/-- Scrubbing an already-scrubbed settings document removes nothing and
reports no write. -/
theorem scrubSettings_idem (doc : Json) :
    scrubSettings (scrubSettings doc).1 = ((scrubSettings doc).1, false) := by
  cases doc with
  | null => rfl
  | bool b => rfl
  | num n => rfl
  | str s => rfl
  | arr elems => rfl
  | obj fields =>
    by_cases henvobj : ∃ envFields, lookupKey fields "env" = some (Json.obj envFields)
    · obtain ⟨envFields, henv⟩ := henvobj
      by_cases hrem : removedKeys envFields = []
      · rw [scrubSettings_no_removal fields envFields henv hrem]
        exact scrubSettings_no_removal fields envFields henv hrem
      · by_cases hscr : removeAnthropic envFields = []
        · rw [scrubSettings_removal_empty fields envFields henv hrem hscr]
          refine scrubSettings_no_env_obj (mapRemove fields "env") ?_
          intro envFields2
          rw [lookupKey_mapRemove_self]
          simp
        · rw [scrubSettings_removal_nonempty fields envFields henv hrem hscr]
          have hset : lookupKey (mapSet fields "env"
              (Json.obj (removeAnthropic envFields))) "env"
              = some (Json.obj (removeAnthropic envFields)) := by
            rw [lookupKey_mapSet_self, henv]
            rfl
          refine scrubSettings_no_removal _ (removeAnthropic envFields) hset ?_
          refine (removedKeys_eq_nil_iff (removeAnthropic envFields)).mpr ?_
          intro k hk
          exact lookupKey_removeAnthropic_mem envFields k hk
    · push_neg at henvobj
      rw [scrubSettings_no_env_obj fields henvobj]
      exact scrubSettings_no_env_obj fields henvobj

/-! ### Overlay extraction and the file-operation traces -/

theorem extractLocalOps_obj_empty (fields : List (String × Json))
    (h : fields.filter (fun p => !(p.1 == "env")) = []) :
    extractLocalOps (Json.obj fields) = [] := by
  simp [extractLocalOps, h]

theorem extractLocalOps_obj_nonempty (fields : List (String × Json))
    (h : fields.filter (fun p => !(p.1 == "env")) ≠ []) :
    extractLocalOps (Json.obj fields) =
      [FsOp.createLocalDir,
        FsOp.writeOverlay (Json.obj (fields.filter (fun p => !(p.1 == "env"))))] := by
  simp [extractLocalOps, h]

/-- The overlay-extraction step never writes settings.json and never
renames. -/
theorem extractLocalOps_shape (profile : Json) :
    (extractLocalOps profile).filter (fun op => op.isSettingsWrite) = [] ∧
    (extractLocalOps profile).all (fun op => !op.isRename) = true := by
  cases profile with
  | obj fields =>
    by_cases h : fields.filter (fun p => !(p.1 == "env")) = []
    · rw [extractLocalOps_obj_empty fields h]
      exact ⟨rfl, rfl⟩
    · rw [extractLocalOps_obj_nonempty fields h]
      exact ⟨rfl, rfl⟩
  | null => exact ⟨rfl, rfl⟩
  | bool b => exact ⟨rfl, rfl⟩
  | num n => exact ⟨rfl, rfl⟩
  | str s => exact ⟨rfl, rfl⟩
  | arr elems => exact ⟨rfl, rfl⟩

/-! ### C2: local overlay extraction -/

/-- C2: for every Primary profile that parses as a JSON object, the extracted
overlay object binds exactly the top-level keys other than env with their
original values; when non-empty it is written (after creating the local
directory, with overwrite semantics), and when empty no file is written. -/
theorem c2_overlay_extraction (fields : List (String × Json)) :
    (∀ k, k ≠ "env" →
      lookupKey (fields.filter (fun p => !(p.1 == "env"))) k = lookupKey fields k) ∧
    lookupKey (fields.filter (fun p => !(p.1 == "env"))) "env" = none ∧
    (fields.filter (fun p => !(p.1 == "env")) = [] →
      extractLocalOps (Json.obj fields) = []) ∧
    (fields.filter (fun p => !(p.1 == "env")) ≠ [] →
      extractLocalOps (Json.obj fields) =
        [FsOp.createLocalDir,
          FsOp.writeOverlay (Json.obj (fields.filter (fun p => !(p.1 == "env"))))]) := by
  refine ⟨?_, ?_, extractLocalOps_obj_empty fields, extractLocalOps_obj_nonempty fields⟩
  · intro k hk
    have hf := lookupKey_filterKeys (fun s => !(s == "env")) fields k
    simpa [hk] using hf
  · have hf := lookupKey_filterKeys (fun s => !(s == "env")) fields "env"
    simpa using hf

/-- C2 witness: the theorem applied to the spec's example profile with env X
and foo: the overlay holds exactly foo with its original value and the
overlay file is written. -/
theorem c2_overlay_extraction_witness :
    ("foo" ≠ "env" ∧
      lookupKey (fooFields.filter (fun p => !(p.1 == "env"))) "foo" = some (Json.str "bar")) ∧
    lookupKey (fooFields.filter (fun p => !(p.1 == "env"))) "env" = none ∧
    extractLocalOps (Json.obj fooFields) =
      [FsOp.createLocalDir,
        FsOp.writeOverlay (Json.obj (fooFields.filter (fun p => !(p.1 == "env"))))] := by
  refine ⟨⟨by decide, ?_⟩, (c2_overlay_extraction fooFields).2.1, ?_⟩
  · rw [(c2_overlay_extraction fooFields).1 "foo" (by decide)]
    rfl
  · refine (c2_overlay_extraction fooFields).2.2.2 ?_
    have h : fooFields.filter (fun p => !(p.1 == "env")) = [("foo", Json.str "bar")] := rfl
    rw [h]
    simp

/-! ### C7: no atomic replace of settings.json -/

/-- C7 counterexample: for a settings document holding one credential key in
env, reconcile performs a settings.json write and no rename operation at
all; the rewrite is a single direct write, not a write-then-rename or
equivalent atomic replace, contradicting the claim. -/
theorem c7_counterexample :
    ((reconcile (some oneCredDoc) (Json.obj fooFields)).2.any
      (fun op => op.isSettingsWrite)) = true ∧
    ((reconcile (some oneCredDoc) (Json.obj fooFields)).2.any
      (fun op => op.isRename)) = false :=
  ⟨rfl, rfl⟩

/-- C7 (amended): reconcile never performs a rename, so no write-then-rename
atomic replace exists; the only settings.json operation, when one occurs, is
a single direct write of the complete scrubbed document, performed exactly
when the scrub removed a credential key. -/
theorem c7_settings_write_shape (settings : Option Json) (profile : Json) :
    ((reconcile settings profile).2.all (fun op => !op.isRename)) = true ∧
    (∀ doc, settings = some doc →
      (reconcile settings profile).2.filter (fun op => op.isSettingsWrite) =
        (if (scrubSettings doc).2 then [FsOp.writeSettings (scrubSettings doc).1] else [])) ∧
    (settings = none →
      (reconcile settings profile).2.filter (fun op => op.isSettingsWrite) = []) := by
  cases settings with
  | none =>
    refine ⟨(extractLocalOps_shape profile).2, ?_, fun _ => (extractLocalOps_shape profile).1⟩
    intro doc h
    exact absurd h (by simp)
  | some doc =>
    refine ⟨?_, ?_, fun h => absurd h (by simp)⟩
    · show (((if (scrubSettings doc).2 then [FsOp.writeSettings (scrubSettings doc).1] else [])
        ++ extractLocalOps profile).all (fun op => !op.isRename)) = true
      rw [List.all_append]
      rw [(extractLocalOps_shape profile).2]
      by_cases hw : (scrubSettings doc).2 <;> simp [hw, FsOp.isRename]
    · intro doc0 h
      have hd : doc0 = doc := by
        injection h with h2
        exact h2.symm
      subst hd
      show (((if (scrubSettings doc0).2 then [FsOp.writeSettings (scrubSettings doc0).1] else [])
        ++ extractLocalOps profile).filter (fun op => op.isSettingsWrite)) = _
      rw [List.filter_append]
      rw [(extractLocalOps_shape profile).1]
      by_cases hw : (scrubSettings doc0).2 <;> simp [hw, FsOp.isSettingsWrite]

/-- C7 witness: the amended theorem applied to the one-credential settings
document: the settings writes of the run are exactly the one complete
scrubbed rewrite. -/
theorem c7_settings_write_shape_witness :
    (reconcile (some oneCredDoc) (Json.obj fooFields)).2.filter
        (fun op => op.isSettingsWrite) =
      (if (scrubSettings oneCredDoc).2 then [FsOp.writeSettings (scrubSettings oneCredDoc).1]
        else []) :=
  (c7_settings_write_shape (some oneCredDoc) (Json.obj fooFields)).2.1 oneCredDoc rfl

/-! ### C8: the second reconcile run -/

/-- C8 counterexample: with the already-scrubbed settings document produced
by the first run and the spec's example profile (which has the non-env key
foo), the second reconcile run still performs a file write: it rewrites the
local overlay.  The claim that the second run performs no file write at all
is false. -/
theorem c8_counterexample :
    ((reconcile (some (scrubSettings oneCredDoc).1) (Json.obj fooFields)).2.any
      (fun op => op.isOverlayWrite)) = true :=
  rfl

/-- C8 (amended): the scrub is idempotent, so the second reconcile run never
writes settings.json; its file operations are exactly the overlay-extraction
operations, which rewrite the overlay whenever the profile has non-env
top-level keys. -/
theorem c8_second_run (doc profile : Json) :
    scrubSettings (scrubSettings doc).1 = ((scrubSettings doc).1, false) ∧
    (reconcile (some (scrubSettings doc).1) profile).2 = extractLocalOps profile ∧
    ((reconcile (some (scrubSettings doc).1) profile).2.all
      (fun op => !op.isSettingsWrite)) = true := by
  have hid := scrubSettings_idem doc
  refine ⟨hid, ?_, ?_⟩
  · show (if (scrubSettings (scrubSettings doc).1).2 then
      [FsOp.writeSettings (scrubSettings (scrubSettings doc).1).1] else [])
      ++ extractLocalOps profile = extractLocalOps profile
    rw [hid]
    simp
  · show ((if (scrubSettings (scrubSettings doc).1).2 then
      [FsOp.writeSettings (scrubSettings (scrubSettings doc).1).1] else [])
      ++ extractLocalOps profile).all (fun op => !op.isSettingsWrite) = true
    rw [hid]
    simp only [List.nil_append]
    cases profile with
    | obj fields =>
      by_cases h : fields.filter (fun p => !(p.1 == "env")) = []
      · rw [extractLocalOps_obj_empty fields h]
        rfl
      · rw [extractLocalOps_obj_nonempty fields h]
        rfl
    | null => rfl
    | bool b => rfl
    | num n => rfl
    | str s => rfl
    | arr elems => rfl

/-! ### C5: discovery ordering -/

/-- C5: the discovery sort produces a permutation of the entries in which
every Claude-kind (Primary) entry precedes every CodeRouter-kind (Router)
entry regardless of how names compare across kinds, and entries of equal
kind appear in alphabetical (string) order of their names. -/
theorem c5_sorted_kinds_then_names (l : List ConfigItem) :
    (sortConfigs l).Perm l ∧
    (sortConfigs l).Pairwise (fun a b =>
      (a.config_type = ConfigType.claude ∨ b.config_type = ConfigType.codeRouter) ∧
      (a.config_type = b.config_type → a.name ≤ b.name)) := by
  refine ⟨List.perm_insertionSort configLE l, ?_⟩
  have hs : (sortConfigs l).Pairwise configLE := List.sorted_insertionSort configLE l
  refine hs.imp ?_
  intro a b hab
  constructor
  · rcases hab with h | ⟨h, -⟩
    · cases ha : a.config_type with
      | claude => exact Or.inl rfl
      | codeRouter =>
        cases hb : b.config_type with
        | codeRouter => exact Or.inr rfl
        | claude =>
          rw [ha, hb] at h
          simp [kindRank] at h
    · cases ha : a.config_type with
      | claude => exact Or.inl rfl
      | codeRouter =>
        cases hb : b.config_type with
        | codeRouter => exact Or.inr rfl
        | claude =>
          rw [ha, hb] at h
          simp [kindRank] at h
  · intro hk
    rcases hab with h | ⟨-, hn⟩
    · rw [hk] at h
      exact absurd h (lt_irrefl _)
    · exact hn

/-- C5 witness: the sort theorem applied to a concrete discovery result in
which the Router entry's name orders alphabetically before the Claude
entry's name. -/
theorem c5_sorted_kinds_then_names_witness :
    (sortConfigs demoConfigs).Perm demoConfigs ∧
    (sortConfigs demoConfigs).Pairwise (fun a b =>
      (a.config_type = ConfigType.claude ∨ b.config_type = ConfigType.codeRouter) ∧
      (a.config_type = b.config_type → a.name ≤ b.name)) :=
  c5_sorted_kinds_then_names demoConfigs

/-! ### C9: selector cursor invariant and wraparound -/

/-- One key press keeps the cursor inside the list. -/
theorem stepCursor_lt (len s : Nat) (h0 : 0 < len) (hs : s < len) (k : Key) :
    stepCursor len s k < len := by
  cases k with
  | up => by_cases h : s = 0 <;> simp [stepCursor, h] <;> omega
  | down => by_cases h : s = len - 1 <;> simp [stepCursor, h] <;> omega
  | enter => simpa [stepCursor] using hs
  | escOrQ => simpa [stepCursor] using hs
  | other => simpa [stepCursor] using hs

/-- Any sequence of key presses keeps the cursor inside the list. -/
theorem foldl_stepCursor_lt (len : Nat) (h0 : 0 < len) :
    ∀ (ks : List Key) (s : Nat), s < len → ks.foldl (stepCursor len) s < len := by
  intro ks
  induction ks with
  | nil => intro s hs; simpa using hs
  | cons k rest ih =>
    intro s hs
    exact ih (stepCursor len s k) (stepCursor_lt len s h0 hs k)

/-- C9: for a non-empty list of length len and a cursor inside it, every
input keeps the cursor in range, every sequence of inputs keeps it in range,
Up at index 0 moves to len - 1, Down at index len - 1 moves to 0, and Up and
Down compute (selected - 1) mod len and (selected + 1) mod len in integer
arithmetic. -/
theorem c9_cursor_wraps (len selected : Nat) (h0 : 0 < len) (hs : selected < len) :
    (∀ k, stepCursor len selected k < len) ∧
    (∀ ks : List Key, ks.foldl (stepCursor len) selected < len) ∧
    stepCursor len 0 Key.up = len - 1 ∧
    stepCursor len (len - 1) Key.down = 0 ∧
    ((stepCursor len selected Key.up : Int) = ((selected : Int) - 1) % (len : Int)) ∧
    ((stepCursor len selected Key.down : Int) = ((selected : Int) + 1) % (len : Int)) := by
  have hl : (0 : Int) < (len : Int) := by exact_mod_cast h0
  refine ⟨fun k => stepCursor_lt len selected h0 hs k,
    fun ks => foldl_stepCursor_lt len h0 ks selected hs, by simp [stepCursor], ?_, ?_, ?_⟩
  · simp [stepCursor]
  · by_cases h : selected = 0
    · subst h
      have hcast : ((len - 1 : Nat) : Int) = (len : Int) - 1 := by
        have := Nat.cast_sub (by omega : 1 ≤ len) (R := Int)
        simpa using this
      have hmod : (-1 : Int) % (len : Int) = (len : Int) - 1 := by
        have h2 : ((len : Int) - 1) % (len : Int) = (len : Int) - 1 :=
          Int.emod_eq_of_lt (by omega) (by omega)
        calc (-1 : Int) % (len : Int)
            = ((len : Int) - 1 + (len : Int) * (-1)) % (len : Int) := by ring_nf
          _ = ((len : Int) - 1) % (len : Int) :=
              Int.add_mul_emod_self_left ((len : Int) - 1) (len : Int) (-1)
          _ = (len : Int) - 1 := h2
      simp [stepCursor, hcast, hmod]
    · have h1 : stepCursor len selected Key.up = selected - 1 := by simp [stepCursor, h]
      have hcast : ((selected - 1 : Nat) : Int) = (selected : Int) - 1 := by
        have := Nat.cast_sub (by omega : 1 ≤ selected) (R := Int)
        simpa using this
      rw [h1, hcast]
      exact (Int.emod_eq_of_lt (by omega) (by omega)).symm
  · by_cases h : selected = len - 1
    · have h1 : stepCursor len selected Key.down = 0 := by simp [stepCursor, h]
      have hcast : (selected : Int) = (len : Int) - 1 := by
        subst h
        have := Nat.cast_sub (by omega : 1 ≤ len) (R := Int)
        simpa using this
      rw [h1, hcast]
      simp
    · have h1 : stepCursor len selected Key.down = selected + 1 := by simp [stepCursor, h]
      have hlt : selected + 1 < len := by omega
      rw [h1]
      push_cast
      exact (Int.emod_eq_of_lt (by omega) (by omega)).symm

/-- C9 witness: the cursor theorem applied to a three-entry list with the
cursor at index 0: Up wraps to index 2. -/
theorem c9_cursor_wraps_witness :
    0 < 3 ∧ stepCursor 3 0 Key.up = 2 :=
  ⟨by decide, by
    have h := (c9_cursor_wraps 3 0 (by decide) (by decide)).2.2.1
    simpa using h⟩

/-! ### C3: Router synthesis with APIKEY present -/

/-- C3 counterexample: for an inherited environment that already binds
ANTHROPIC_AUTH_TOKEN, the environment synthesized for the Router profile
with APIKEY k1 still contains that inherited ANTHROPIC_AUTH_TOKEN entry,
contradicting the claim that for every inherited environment the result
contains no ANTHROPIC_AUTH_TOKEN entry. -/
theorem c3_counterexample :
    lookupKey (synthesizeEnv ConfigType.codeRouter routerDemo
        [("ANTHROPIC_AUTH_TOKEN", "ambient")]) "ANTHROPIC_AUTH_TOKEN" = some "ambient" :=
  rfl

/-- C3 (amended): for every inherited environment, synthesizing for the
Router profile with APIKEY k1 and PORT 8080 binds ANTHROPIC_API_KEY to k1
and ANTHROPIC_BASE_URL to http://127.0.0.1:8080, and does not insert the
placeholder ANTHROPIC_AUTH_TOKEN: the ANTHROPIC_AUTH_TOKEN binding of the
result is exactly that of the inherited environment (so the result has none
whenever the inherited environment has none). -/
theorem c3_router_apikey (inherited : Env) :
    lookupKey (synthesizeEnv ConfigType.codeRouter routerDemo inherited)
      "ANTHROPIC_API_KEY" = some "k1" ∧
    lookupKey (synthesizeEnv ConfigType.codeRouter routerDemo inherited)
      "ANTHROPIC_BASE_URL" = some "http://127.0.0.1:8080" ∧
    lookupKey (synthesizeEnv ConfigType.codeRouter routerDemo inherited)
      "ANTHROPIC_AUTH_TOKEN" = lookupKey inherited "ANTHROPIC_AUTH_TOKEN" := by
  have hsyn : synthesizeEnv ConfigType.codeRouter routerDemo inherited =
      envInsert (envInsert inherited "ANTHROPIC_API_KEY" "k1") "ANTHROPIC_BASE_URL"
        "http://127.0.0.1:8080" := rfl
  rw [hsyn]
  refine ⟨?_, ?_, ?_⟩
  · rw [lookupKey_envInsert_ne _ _ _ _ (by decide)]
    exact lookupKey_envInsert_self _ _ _
  · exact lookupKey_envInsert_self _ _ _
  · rw [lookupKey_envInsert_ne _ _ _ _ (by decide)]
    exact lookupKey_envInsert_ne _ _ _ _ (by decide)

/-! ### C4: the base-URL port -/

/-- C4 counterexample: a Router profile whose PORT field is the empty string
yields the base URL http://127.0.0.1: with no port digits, not the claimed
default http://127.0.0.1:3456. -/
theorem c4_counterexample :
    lookupKey (synthesizeEnv ConfigType.codeRouter emptyPortDemo [])
      "ANTHROPIC_BASE_URL" = some "http://127.0.0.1:" ∧
    "http://127.0.0.1:" ≠ "http://127.0.0.1:3456" :=
  ⟨rfl, by decide⟩

/-- C4 (amended): ANTHROPIC_BASE_URL is http://127.0.0.1:<port> where <port>
is the PORT field's string value whenever PORT is present as a string, even
when that string is empty; the default 3456 applies exactly when PORT is
absent or not a string. -/
theorem c4_base_url (config : Json) (inherited : Env) :
    (∀ p, (config.get "PORT").bind Json.asStr = some p →
      lookupKey (synthesizeEnv ConfigType.codeRouter config inherited)
        "ANTHROPIC_BASE_URL" = some ("http://127.0.0.1:" ++ p)) ∧
    ((config.get "PORT").bind Json.asStr = none →
      lookupKey (synthesizeEnv ConfigType.codeRouter config inherited)
        "ANTHROPIC_BASE_URL" = some "http://127.0.0.1:3456") := by
  constructor
  · intro p hp
    simp only [synthesizeEnv, hp]
    exact lookupKey_envInsert_self _ _ _
  · intro hp
    simp only [synthesizeEnv, hp]
    exact lookupKey_envInsert_self _ _ _

/-- C4 witness: the amended theorem applied to the empty-string PORT
profile. -/
theorem c4_base_url_witness :
    (Json.get emptyPortDemo "PORT").bind Json.asStr = some "" ∧
    lookupKey (synthesizeEnv ConfigType.codeRouter emptyPortDemo [])
      "ANTHROPIC_BASE_URL" = some ("http://127.0.0.1:" ++ "") :=
  ⟨rfl, (c4_base_url emptyPortDemo []).1 "" rfl⟩

/-! ### C6: companion restart failures during a Router activation -/

/-- C6 counterexample: when the companion restart cannot be spawned at all,
the error propagates out of switch_configuration (question-mark operator)
before the target launch: the activation fails and claude is never
launched, contradicting the claim that a companion restart failure is never
fatal to a Router activation. -/
theorem c6_counterexample :
    (switchRouter restartSpawnFailRun).1 = false ∧
    Event.claudeLaunched ∉ (switchRouter restartSpawnFailRun).2 :=
  ⟨rfl, by decide⟩

/-- C6 (amended): a companion restart that runs and exits non-zero is logged
and non-fatal, and the activation proceeds to launch the target; but a
companion restart that cannot be spawned at all is fatal (the target is
never launched), as is a target spawn failure.  The companion stop outcome
never affects the result. -/
theorem c6_companion_failures (c d : Int) (stop : ProcOutcome) :
    ((switchRouter ⟨ProcOutcome.exited c, ProcOutcome.exited d, stop⟩).1 = true ∧
      Event.claudeLaunched ∈
        (switchRouter ⟨ProcOutcome.exited c, ProcOutcome.exited d, stop⟩).2) ∧
    ((switchRouter ⟨ProcOutcome.spawnFail, ProcOutcome.exited d, stop⟩).1 = false ∧
      Event.claudeLaunched ∉
        (switchRouter ⟨ProcOutcome.spawnFail, ProcOutcome.exited d, stop⟩).2) ∧
    (switchRouter ⟨ProcOutcome.exited c, ProcOutcome.spawnFail, stop⟩).1 = false := by
  refine ⟨⟨rfl, ?_⟩, ⟨rfl, ?_⟩, rfl⟩
  · by_cases hc : c = 0 <;> by_cases hd : d = 0 <;>
      simp [switchRouter, run_ccr_restart, launchRouter, stop_ccr, hc, hd]
  · simp [switchRouter, run_ccr_restart]

end Codust
